import Mathlib

/-!
# Verification of the remote-velero multi-cluster client resolver and
# backup-deletion reconciliation engine

This file gives a shallow embedding of two parts of the codegold79/remote-velero
repository and proves properties about them.

Part 1 embeds `pkg/client/factory.go`: the multi-cluster credential resolver
(`SourceClientConfig`, `DestinationClientConfig`, `serviceAcctCredsFromSecret`,
`restConfigWithSAToken`, `restConfigWithKubeConfig`, `setTransportProxy`).
External collaborators (the Kubernetes secret listing, the kubeconfig parser
`clientcmd.RESTConfigFromKubeConfig`, and `net/url.Parse`) are passed in as
explicit parameters, so theorems quantify over their behaviour.

Part 2 embeds the backup-deletion controller (`processRequest`,
`deleteExpiredRequests`) whose implementation file is not part of the
available sources; only its test file is.  Those definitions are therefore
modelled from the design specification, with every behaviour that the test
file pins down (action ordering, error strings, patch payloads) taken from
the tests.
-/

namespace RemoteVelero

/-! ## Part 1: pkg/client/factory.go -/

/-- A parsed URL, kept abstract: only its raw text matters to the embedding.
`net/url.Parse` is an external collaborator and is passed around as a
function `String → Option URL` (`none` models a parse error). -/
structure URL where
  raw : String
deriving DecidableEq, Repr

/-- The `serviceAcctCreds` struct of factory.go: the four credential fields
read out of a cluster-credentials secret. -/
structure ServiceAcctCreds where
  host : String
  saToken : String
  kubeconfig : String
  httpsProxy : String
deriving DecidableEq, Repr

/-- The zero value `serviceAcctCreds{}` that factory.go compares against. -/
def ServiceAcctCreds.zero : ServiceAcctCreds :=
  { host := "", saToken := "", kubeconfig := "", httpsProxy := "" }

/-- The relevant data fields of a Kubernetes secret, mirroring the keys
`host`, `sa-token`, `kubeconfig`, `https_proxy` read by
`serviceAcctCredsFromSecret` (a missing key reads as the empty string). -/
structure SecretData where
  host : String
  saToken : String
  kubeconfig : String
  httpsProxy : String
deriving DecidableEq, Repr

/-- A named Kubernetes secret in the factory's namespace. -/
structure Secret where
  name : String
  data : SecretData
deriving DecidableEq, Repr

/-- The secret-name constants of factory.go. -/
def srcClusterSecretName : String := "srccluster"

/-- The destination-cluster secret name constant of factory.go. -/
def destClusterSecretName : String := "destcluster"

/-- The shared remote-cluster secret name constant of factory.go. -/
def remoteClusterSecretName : String := "remotecluster"

/-- The mutable state of the `factory` struct (flag-derived fields and the
fields the resolver itself mutates).  `clientQPS`/`clientBurst` are float/int
tuning knobs passed through to the local config and are not modelled. -/
structure Factory where
  kubeconfig : String
  kubecontext : String
  srcClusterHost : String
  destClusterHost : String
  baseName : String
  nspace : String
  httpsProxy : String
  httpProxy : String
deriving DecidableEq, Repr

/-- Where a rest.Config came from. -/
inductive ConfigSource where
  /-- Built field-by-field by `restConfigWithSAToken`. -/
  | saTokenCfg : ConfigSource
  /-- Built by `clientcmd.RESTConfigFromKubeConfig` from these kubeconfig bytes. -/
  | kubeconfigBytes (kc : String) : ConfigSource
  /-- The local cluster configuration (kubeconfig flag / KUBECONFIG / in-cluster). -/
  | localCfg (kubeconfigFlag kubecontext baseName : String) : ConfigSource
deriving DecidableEq, Repr

/-- The fields of a `rest.Config` that the factory code touches.  A `none`
field means the factory's own code did not set it (for a kubeconfig-built
config the field keeps whatever the kubeconfig parser produced).
`transportProxy = some u` records that `config.Wrap` installed a transport
proxy whose `url.Parse` result was `u` (`some none` = parse failed, proxy
URL is nil). -/
structure RestConfig where
  source : ConfigSource
  host : Option String := none
  bearerToken : Option String := none
  tlsInsecure : Option Bool := none
  burst : Option Nat := none
  qps : Option Nat := none
  transportProxy : Option (Option URL) := none
deriving DecidableEq, Repr

/-- `setTransportProxy` of factory.go: `proxyURL, _ := url.Parse(proxy)`
discards the parse error, then `transport.Proxy = http.ProxyURL(proxyURL)`
installs the (possibly nil) parsed URL on the transport. -/
def setTransportProxy (parseURL : String → Option URL) (config : RestConfig)
    (proxy : String) : RestConfig :=
  let proxyURL := parseURL proxy
  { config with transportProxy := some proxyURL }

/-- `factory.restConfigWithSAToken`: a config built from the bare host URL and
service-account token, with `TLSClientConfig{Insecure: true}`, `Burst: 1000`,
`QPS: 100`, and the https proxy installed when the factory has one. -/
def restConfigWithSAToken (parseURL : String → Option URL) (f : Factory)
    (creds : ServiceAcctCreds) : RestConfig :=
  let config : RestConfig :=
    { source := ConfigSource.saTokenCfg
      host := some creds.host
      bearerToken := some creds.saToken
      tlsInsecure := some true
      burst := some 1000
      qps := some 100 }
  if f.httpsProxy ≠ "" then setTransportProxy parseURL config f.httpsProxy
  else config

/-- `factory.restConfigWithKubeConfig`: the config is whatever
`clientcmd.RESTConfigFromKubeConfig(creds.kubeconfig)` (an external library,
passed as `kcParse`) returns — the factory code sets no field of it other
than installing the https proxy when the factory has one.  A parse error is
returned unchanged. -/
def restConfigWithKubeConfig (parseURL : String → Option URL)
    (kcParse : String → Except String RestConfig) (f : Factory)
    (creds : ServiceAcctCreds) : Except String RestConfig :=
  match kcParse creds.kubeconfig with
  | Except.error e => Except.error e
  | Except.ok config =>
      Except.ok (if f.httpsProxy ≠ "" then setTransportProxy parseURL config f.httpsProxy
                 else config)

/-- `client.Config(kubeconfig, kubecontext, baseName, qps, burst)`, the local
cluster configuration builder (defined in config.go, outside the available
sources).  Modelled abstractly as a config marked as coming from the local
cluster resolution chain; the factory applies no proxy wrap to it. -/
def Config (kubeconfig kubecontext baseName : String) : RestConfig :=
  { source := ConfigSource.localCfg kubeconfig kubecontext baseName }

/-- The credentials a single `serviceAcctCredsFromSecret` call extracts from
a secret list: the first secret whose name matches contributes its four data
fields; no match yields the zero struct. -/
def lookupSecretCreds (secrets : List Secret) (secretName : String) : ServiceAcctCreds :=
  match secrets.find? (fun item => item.name == secretName) with
  | some item =>
      { host := item.data.host, saToken := item.data.saToken,
        kubeconfig := item.data.kubeconfig, httpsProxy := item.data.httpsProxy }
  | none => ServiceAcctCreds.zero

/-- `factory.serviceAcctCredsFromSecret(secretName, secretNS)`: lists the
secrets of the factory's namespace (the listing's outcome, including its
possible error, is the `secretsList` argument), scans for the named secret,
and — side effect on the factory — adopts the secret's `https_proxy` value
when the factory does not have one yet. -/
def serviceAcctCredsFromSecret (f : Factory)
    (secretsList : Except String (List Secret)) (secretName : String) :
    Except String ServiceAcctCreds × Factory :=
  match secretsList with
  | Except.error e => (Except.error e, f)
  | Except.ok secrets =>
      match secrets.find? (fun item => item.name == secretName) with
      | some item =>
          let saCreds : ServiceAcctCreds :=
            { host := item.data.host, saToken := item.data.saToken,
              kubeconfig := item.data.kubeconfig, httpsProxy := item.data.httpsProxy }
          if f.httpsProxy = "" ∧ saCreds.httpsProxy ≠ "" then
            (Except.ok saCreds, { f with httpsProxy := saCreds.httpsProxy })
          else
            (Except.ok saCreds, f)
      | none => (Except.ok ServiceAcctCreds.zero, f)

/-- `factory.SourceClientConfig`: shared `remotecluster` secret first, then
the `srccluster` secret, then the local cluster configuration; a non-empty
kubeconfig field wins over the token shape; the resolved host is retained in
`srcClusterHost`. -/
def SourceClientConfig (parseURL : String → Option URL)
    (kcParse : String → Except String RestConfig) (f : Factory)
    (secretsList : Except String (List Secret)) :
    Except String RestConfig × Factory :=
  match serviceAcctCredsFromSecret f secretsList remoteClusterSecretName with
  | (Except.error e, f0) => (Except.error e, f0)
  | (Except.ok creds0, f0) =>
      match (if creds0 = ServiceAcctCreds.zero then
               serviceAcctCredsFromSecret f0 secretsList srcClusterSecretName
             else (Except.ok creds0, f0)) with
      | (Except.error e, f1) => (Except.error e, f1)
      | (Except.ok srcCreds, f1) =>
          if srcCreds ≠ ServiceAcctCreds.zero then
            let f2 := { f1 with srcClusterHost := srcCreds.host }
            if srcCreds.kubeconfig ≠ "" then
              (restConfigWithKubeConfig parseURL kcParse f2 srcCreds, f2)
            else
              (Except.ok (restConfigWithSAToken parseURL f2 srcCreds), f2)
          else
            (Except.ok (Config f1.kubeconfig f1.kubecontext f1.baseName), f1)

/-- `factory.DestinationClientConfig`: identical to `SourceClientConfig`
except that the role-specific secret is `destcluster` and the resolved host
is retained in `destClusterHost`. -/
def DestinationClientConfig (parseURL : String → Option URL)
    (kcParse : String → Except String RestConfig) (f : Factory)
    (secretsList : Except String (List Secret)) :
    Except String RestConfig × Factory :=
  match serviceAcctCredsFromSecret f secretsList remoteClusterSecretName with
  | (Except.error e, f0) => (Except.error e, f0)
  | (Except.ok creds0, f0) =>
      match (if creds0 = ServiceAcctCreds.zero then
               serviceAcctCredsFromSecret f0 secretsList destClusterSecretName
             else (Except.ok creds0, f0)) with
      | (Except.error e, f1) => (Except.error e, f1)
      | (Except.ok destCreds, f1) =>
          if destCreds ≠ ServiceAcctCreds.zero then
            let f2 := { f1 with destClusterHost := destCreds.host }
            if destCreds.kubeconfig ≠ "" then
              (restConfigWithKubeConfig parseURL kcParse f2 destCreds, f2)
            else
              (Except.ok (restConfigWithSAToken parseURL f2 destCreds), f2)
          else
            (Except.ok (Config f1.kubeconfig f1.kubecontext f1.baseName), f1)

/-- The https-proxy value the factory holds after one secret read: the
secret's proxy is adopted only when the factory had none. -/
def stickyProxy (f : Factory) (creds : ServiceAcctCreds) : String :=
  if f.httpsProxy = "" ∧ creds.httpsProxy ≠ "" then creds.httpsProxy else f.httpsProxy

/-- The factory state after one secret read. -/
def stickyUpdate (f : Factory) (creds : ServiceAcctCreds) : Factory :=
  { f with httpsProxy := stickyProxy f creds }

/-- The credentials a `SourceClientConfig` (role = src) or
`DestinationClientConfig` (role = dest) call resolves, as a pure function of
the secret list alone: the shared secret's credentials when non-empty,
otherwise the role-specific secret's credentials. -/
def resolvedCreds (secrets : List Secret) (roleSecretName : String) : ServiceAcctCreds :=
  if lookupSecretCreds secrets remoteClusterSecretName = ServiceAcctCreds.zero then
    lookupSecretCreds secrets roleSecretName
  else
    lookupSecretCreds secrets remoteClusterSecretName

/-- Whether an `Except` result is a success. -/
def exceptIsOk {ε α : Type} : Except ε α → Bool
  | Except.ok _ => true
  | Except.error _ => false

/-! ## Part 2: the backup-deletion controller

The controller implementation file (`backup_deletion_controller.go`) is not
among the available sources; only its test file is.  The definitions below
are therefore modelled from the design specification (§4.3 processRequest,
§4.4 Expiry Sweeper), with every behaviour the test file pins down — exact
error strings, patch payloads, the order of API actions, the deletion of
sibling requests, the 24-hour inclusive retention boundary — taken from the
tests `TestBackupDeletionControllerProcessRequest` and
`TestBackupDeletionControllerDeleteExpiredRequests`. -/

/-- Phase of a DeleteBackupRequest. -/
inductive DeleteBackupRequestPhase where
  | unset : DeleteBackupRequestPhase
  | new : DeleteBackupRequestPhase
  | inProgress : DeleteBackupRequestPhase
  | processed : DeleteBackupRequestPhase
deriving DecidableEq, Repr

/-- Access mode of a BackupStorageLocation. -/
inductive BSLAccessMode where
  | readWrite : BSLAccessMode
  | readOnly : BSLAccessMode
deriving DecidableEq, Repr

/-- A Backup object (the fields the deletion engine reads). -/
structure Backup where
  nspace : String
  name : String
  uid : String
  storageLocation : String
deriving DecidableEq, Repr

/-- A BackupStorageLocation object. -/
structure BackupStorageLocation where
  nspace : String
  name : String
  accessMode : BSLAccessMode
deriving DecidableEq, Repr

/-- A VolumeSnapshotLocation object: name plus snapshot-provider name. -/
structure VolumeSnapshotLocation where
  nspace : String
  name : String
  provider : String
deriving DecidableEq, Repr

/-- A Restore object: its backup-name correlation (the label selector the
engine uses to find restores of a backup). -/
structure Restore where
  nspace : String
  name : String
  backupName : String
deriving DecidableEq, Repr

/-- A DeleteBackupRequest object. -/
structure DeleteBackupRequest where
  nspace : String
  name : String
  backupName : String
  backupNameLabel : Option String
  phase : DeleteBackupRequestPhase
  creationTimestamp : Int
deriving DecidableEq, Repr

/-- A volume snapshot record stored with the backup: the
VolumeSnapshotLocation it was taken at and the provider-specific snapshot
identifier. -/
structure Snapshot where
  location : String
  providerSnapshotID : String
deriving DecidableEq, Repr

/-- Modelled from the spec: a deterministic arithmetic hash of a string,
standing in for the cryptographic hash the repository's label helper
(`label.GetValidName`, not among the available sources) computes over a
too-long backup name. -/
def labelHash (s : String) : Nat :=
  s.data.foldl (fun h c => (h * 31 + c.toNat) % 16777216) 7

/-- A single lowercase hexadecimal digit. -/
def hexDigit (n : Nat) : Char :=
  if n < 10 then Char.ofNat (48 + n) else Char.ofNat (87 + n)

/-- Modelled from the spec: the six-character deterministic hash suffix
appended to a truncated backup name. -/
def hashSuffix (s : String) : String :=
  String.mk [hexDigit (labelHash s / 1048576 % 16), hexDigit (labelHash s / 65536 % 16),
             hexDigit (labelHash s / 4096 % 16), hexDigit (labelHash s / 256 % 16),
             hexDigit (labelHash s / 16 % 16), hexDigit (labelHash s % 16)]

/-- Modelled from the spec: the label helper producing a valid (≤ 63
character) label value from a backup name — the name itself when it fits,
otherwise a 57-character truncated name followed by a deterministic
6-character hash suffix (`label.GetValidName` is not among the available
sources). -/
def getValidName (s : String) : String :=
  if s.length ≤ 63 then s
  else String.mk (s.data.take 57 ++ (hashSuffix s).data)

/-- The world the controller operates against, together with the injected
outcomes of every external call the specification classifies as fallible.
An `Option String` knob of value `some e` makes the corresponding call fail
with message `e`; function-valued knobs give one outcome per object. -/
structure Env where
  backups : List Backup
  locations : List BackupStorageLocation
  snapshotLocations : List VolumeSnapshotLocation
  restores : List Restore
  requests : List DeleteBackupRequest
  tracker : List (String × String)
  deleteItemActions : Nat
  snapshots : List Snapshot
  patchRequestInProgressErr : Option String
  patchBackupDeletingErr : Option String
  getBackupContentsErr : Option String
  getSnapshotsErr : Option String
  deleteSnapshotErr : Snapshot → Option String
  deleteRestoreClusterErr : Restore → Option String
  deleteRestoreStorageErr : Restore → Option String
  deleteBackupClusterErr : Option String
  deleteBackupStorageErr : Option String

/-- One observable Kubernetes-API or backup-store operation of a
`processRequest` run, in the order performed. -/
inductive Action where
  /-- Delete a sibling DeleteBackupRequest object. -/
  | deleteRequest (nspace name : String) : Action
  /-- Get the target Backup object. -/
  | getBackup (nspace name : String) : Action
  /-- Patch the request to InProgress, setting the backup-name label. -/
  | patchRequestInProgress (backupNameLabel : String) : Action
  /-- Patch the backup-UID label onto the request. -/
  | patchRequestUIDLabel (uid : String) : Action
  /-- Patch the Backup's phase to Deleting. -/
  | patchBackupDeleting (nspace name : String) : Action
  /-- Delete a Restore object from the cluster. -/
  | deleteRestoreCluster (nspace name : String) : Action
  /-- Delete a restore's stored metadata from the backup store. -/
  | deleteRestoreStorage (name : String) : Action
  /-- Delete the Backup object from the cluster. -/
  | deleteBackupCluster (nspace name : String) : Action
  /-- Delete the backup's data from the backup store. -/
  | deleteBackupStorage (name : String) : Action
  /-- Patch the request to Processed, carrying the accumulated error list. -/
  | patchRequestProcessed (errors : List String) : Action
  /-- Delete the collection of DeleteBackupRequest objects matching the
  backup-name and backup-UID label pair. -/
  | deleteRequestCollection (nspace backupNameLabel uid : String) : Action
deriving DecidableEq, Repr

/-- The outcome of one `processRequest` run: the returned error, the trace
of API/store operations attempted, the provider snapshot deletions
requested through the plugin handles, and whether the content archive
download was attempted. -/
structure ProcessResult where
  err : Option String
  actions : List Action
  deletedSnapshots : List Snapshot
  downloadAttempted : Bool
deriving DecidableEq, Repr

/-- A run that ends on a validation outcome: no error returned, the listed
actions performed, no snapshot deletions and no archive download. -/
def ProcessResult.terminal (acts : List Action) : ProcessResult :=
  { err := none, actions := acts, deletedSnapshots := [], downloadAttempted := false }

/-- Fetch the target Backup by namespace and name. -/
def lookupBackup (env : Env) (nspace name : String) : Option Backup :=
  env.backups.find? (fun b => b.nspace == nspace && b.name == name)

/-- Fetch a BackupStorageLocation by namespace and name. -/
def lookupLocation (env : Env) (nspace name : String) : Option BackupStorageLocation :=
  env.locations.find? (fun l => l.nspace == nspace && l.name == name)

/-- `backupTracker.Contains(namespace, name)`: the Concurrency Guard query. -/
def trackerContains (env : Env) (nspace name : String) : Bool :=
  env.tracker.contains (nspace, name)

/-- Modelled from the spec and the test "existing deletion requests for the
backup are deleted": before processing, every other DeleteBackupRequest in
the request's namespace carrying the (possibly hash-shortened) backup-name
label of the same backup is deleted, so only one request per backup
remains. -/
def deleteExistingDeletionRequests (env : Env) (req : DeleteBackupRequest) : List Action :=
  (env.requests.filter (fun r =>
      r.nspace == req.nspace &&
      r.backupNameLabel == some (getValidName req.backupName) &&
      r.name != req.name)).map (fun r => Action.deleteRequest r.nspace r.name)

/-- The Restore objects correlated to the backup by backup-name label. -/
def correlatedRestores (env : Env) (req : DeleteBackupRequest) (backup : Backup) : List Restore :=
  env.restores.filter (fun r => r.nspace == req.nspace && r.backupName == backup.name)

/-- The cluster and store deletions performed for a list of restores: each
restore is deleted from the cluster and its stored metadata from the backup
store, every step attempted even if an earlier one fails. -/
def restoreDeleteActions (rs : List Restore) : List Action :=
  rs.flatMap (fun r => [Action.deleteRestoreCluster r.nspace r.name,
                     Action.deleteRestoreStorage r.name])

/-- The recoverable errors accumulated while deleting restores. -/
def restoreDeleteErrors (env : Env) (rs : List Restore) : List String :=
  rs.flatMap (fun r => (env.deleteRestoreClusterErr r).toList ++
                    (env.deleteRestoreStorageErr r).toList)

/-- The recoverable errors accumulated during volume snapshot cleanup:
either the failure to list the snapshots, or per snapshot a failed
provider resolution or a failed provider deletion. -/
def snapshotErrors (env : Env) (req : DeleteBackupRequest) : List String :=
  match env.getSnapshotsErr with
  | some e => [e]
  | none =>
      env.snapshots.flatMap (fun s =>
        match env.snapshotLocations.find? (fun v => v.nspace == req.nspace && v.name == s.location) with
        | none => ["volume snapshot location " ++ s.location ++ " not found"]
        | some _ => (env.deleteSnapshotErr s).toList)

/-- The provider snapshot deletions requested: every listed snapshot whose
VolumeSnapshotLocation resolves to a provider plugin. -/
def requestedSnapshotDeletions (env : Env) (req : DeleteBackupRequest) : List Snapshot :=
  match env.getSnapshotsErr with
  | some _ => []
  | none =>
      env.snapshots.filter (fun s =>
        (env.snapshotLocations.find? (fun v => v.nspace == req.nspace && v.name == s.location)).isSome)

/-- The full recoverable-error list a completed cascade accumulates, in
cascade order: snapshot cleanup, restore cleanup, backup deletion from the
cluster, backup deletion from the store.  A failed archive download is
logged but (as the test "backup is still deleted if downloading tarball
fails for DeleteItemAction plugins" pins down) contributes no entry. -/
def cascadeErrors (env : Env) (req : DeleteBackupRequest) (backup : Backup) : List String :=
  snapshotErrors env req ++
  restoreDeleteErrors env (correlatedRestores env req backup) ++
  (env.deleteBackupClusterErr).toList ++
  (env.deleteBackupStorageErr).toList

/-- Modelled from the spec (§4.3) and the test file: `processRequest` of the
backup-deletion controller, whose implementation is not among the available
sources.  Ordering and observable effects follow the tests: validate the
backup name; delete sibling deletion requests; refuse a backup the
Concurrency Guard marks active; fetch the backup (terminal "backup not
found" patch if absent); fetch its storage location (terminal patch if
absent or read-only); patch the request to InProgress with the backup-name
label (fatal on failure); patch the backup-UID label; patch the Backup to
Deleting (fatal on failure); then the best-effort cascade: archive download
for delete-item actions (failure logged only), provider snapshot
deletions, restore deletions from cluster and store, backup deletion from
cluster and store, the final Processed patch carrying the accumulated
recoverable errors, and the bulk deletion of all requests labelled with
this backup's name and UID. -/
def processRequest (env : Env) (req : DeleteBackupRequest) : ProcessResult :=
  if req.backupName = "" then
    ProcessResult.terminal [Action.patchRequestProcessed ["spec.backupName is required"]]
  else
    let dedup := deleteExistingDeletionRequests env req
    if trackerContains env req.nspace req.backupName then
      ProcessResult.terminal (dedup ++ [Action.patchRequestProcessed ["backup is still in progress"]])
    else
      match lookupBackup env req.nspace req.backupName with
      | none =>
          ProcessResult.terminal (dedup ++
            [Action.getBackup req.nspace req.backupName,
             Action.patchRequestProcessed ["backup not found"]])
      | some backup =>
          match lookupLocation env backup.nspace backup.storageLocation with
          | none =>
              ProcessResult.terminal (dedup ++
                [Action.getBackup req.nspace req.backupName,
                 Action.patchRequestProcessed
                   ["backup storage location " ++ backup.storageLocation ++ " not found"]])
          | some location =>
              if location.accessMode = BSLAccessMode.readOnly then
                ProcessResult.terminal (dedup ++
                  [Action.getBackup req.nspace req.backupName,
                   Action.patchRequestProcessed
                     ["cannot delete backup because backup storage location " ++ location.name ++
                      " is currently in read-only mode"]])
              else
                match env.patchRequestInProgressErr with
                | some e =>
                    { err := some ("error patching DeleteBackupRequest: " ++ e)
                      actions := dedup ++
                        [Action.getBackup req.nspace req.backupName,
                         Action.patchRequestInProgress (getValidName backup.name)]
                      deletedSnapshots := []
                      downloadAttempted := false }
                | none =>
                    match env.patchBackupDeletingErr with
                    | some e =>
                        { err := some ("error patching Backup: " ++ e)
                          actions := dedup ++
                            [Action.getBackup req.nspace req.backupName,
                             Action.patchRequestInProgress (getValidName backup.name),
                             Action.patchRequestUIDLabel backup.uid,
                             Action.patchBackupDeleting backup.nspace backup.name]
                          deletedSnapshots := []
                          downloadAttempted := false }
                    | none =>
                        { err := none
                          actions := dedup ++
                            [Action.getBackup req.nspace req.backupName,
                             Action.patchRequestInProgress (getValidName backup.name),
                             Action.patchRequestUIDLabel backup.uid,
                             Action.patchBackupDeleting backup.nspace backup.name] ++
                            restoreDeleteActions (correlatedRestores env req backup) ++
                            [Action.deleteBackupCluster req.nspace backup.name,
                             Action.deleteBackupStorage backup.name,
                             Action.patchRequestProcessed (cascadeErrors env req backup),
                             Action.deleteRequestCollection req.nspace
                               (getValidName backup.name) backup.uid]
                          deletedSnapshots := requestedSnapshotDeletions env req
                          downloadAttempted := decide (0 < env.deleteItemActions) }

/-- The retention window of the Expiry Sweeper, in seconds. -/
def maxRequestAge : Int := 24 * 60 * 60

/-- Modelled from the spec (§4.4) and the test
`TestBackupDeletionControllerDeleteExpiredRequests`: the Expiry Sweeper's
`deleteExpiredRequests` pass, whose implementation is not among the
available sources.  It returns the requests it deletes: those with phase
Processed whose creation time is at or before now minus 24 hours (the
boundary counts as expired); each candidate is judged on its own. -/
def deleteExpiredRequests (now : Int) (requests : List DeleteBackupRequest) :
    List DeleteBackupRequest :=
  requests.filter (fun r =>
    r.phase == DeleteBackupRequestPhase.processed &&
    decide (r.creationTimestamp ≤ now - maxRequestAge))


/-- The concrete full-delete deletion request of the scenario in the test
"full delete, no errors". -/
def reqFullDelete : DeleteBackupRequest :=
  { nspace := "velero", name := "foo-abcde", backupName := "foo",
    backupNameLabel := some "foo", phase := DeleteBackupRequestPhase.new,
    creationTimestamp := 0 }

/-- The concrete full-success world of the test "full delete, no errors":
backup `foo` with two correlated restores, one unrelated restore, a
writable storage location, one recorded snapshot, and no failures. -/
def envFullDelete : Env :=
  { backups := [{ nspace := "velero", name := "foo", uid := "uid", storageLocation := "primary" }]
    locations := [{ nspace := "velero", name := "primary", accessMode := BSLAccessMode.readWrite }]
    snapshotLocations := [{ nspace := "velero", name := "vsl-1", provider := "provider-1" }]
    restores := [{ nspace := "velero", name := "restore-1", backupName := "foo" },
                 { nspace := "velero", name := "restore-2", backupName := "foo" },
                 { nspace := "velero", name := "restore-3", backupName := "some-other-backup" }]
    requests := [reqFullDelete]
    tracker := []
    deleteItemActions := 0
    snapshots := [{ location := "vsl-1", providerSnapshotID := "snap-1" }]
    patchRequestInProgressErr := none
    patchBackupDeletingErr := none
    getBackupContentsErr := none
    getSnapshotsErr := none
    deleteSnapshotErr := fun _ => none
    deleteRestoreClusterErr := fun _ => none
    deleteRestoreStorageErr := fun _ => none
    deleteBackupClusterErr := none
    deleteBackupStorageErr := none }

/-- The action sequence claimed for a full successful deletion, in the
claimed order: InProgress patch first, backup fetch second. -/
def claimedFullDeleteSequence : List Action :=
  [Action.patchRequestInProgress "foo",
   Action.getBackup "velero" "foo",
   Action.patchRequestUIDLabel "uid",
   Action.patchBackupDeleting "velero" "foo",
   Action.deleteRestoreCluster "velero" "restore-1",
   Action.deleteRestoreStorage "restore-1",
   Action.deleteRestoreCluster "velero" "restore-2",
   Action.deleteRestoreStorage "restore-2",
   Action.deleteBackupCluster "velero" "foo",
   Action.deleteBackupStorage "foo",
   Action.patchRequestProcessed [],
   Action.deleteRequestCollection "velero" "foo" "uid"]

/-- The deletion request of the failed-tarball-download scenario. -/
def reqTarballFail : DeleteBackupRequest :=
  { nspace := "velero", name := "foo-abcde", backupName := "foo",
    backupNameLabel := some "foo", phase := DeleteBackupRequestPhase.new,
    creationTimestamp := 0 }

/-- The concrete world of the test "backup is still deleted if downloading
tarball fails for DeleteItemAction plugins": one registered delete-item
action, a failing content-archive download, and no other failures. -/
def envTarballFail : Env :=
  { backups := [{ nspace := "velero", name := "foo", uid := "uid", storageLocation := "primary" }]
    locations := [{ nspace := "velero", name := "primary", accessMode := BSLAccessMode.readWrite }]
    snapshotLocations := [{ nspace := "velero", name := "vsl-1", provider := "provider-1" }]
    restores := []
    requests := [reqTarballFail]
    tracker := []
    deleteItemActions := 1
    snapshots := [{ location := "vsl-1", providerSnapshotID := "snap-1" }]
    patchRequestInProgressErr := none
    patchBackupDeletingErr := none
    getBackupContentsErr := some "error downloading tarball"
    getSnapshotsErr := none
    deleteSnapshotErr := fun _ => none
    deleteRestoreClusterErr := fun _ => none
    deleteRestoreStorageErr := fun _ => none
    deleteBackupClusterErr := none
    deleteBackupStorageErr := none }

/-- The deletion request of the in-progress-backup scenario. -/
def reqTracked : DeleteBackupRequest :=
  { nspace := "velero", name := "foo-abcde", backupName := "foo",
    backupNameLabel := some "foo", phase := DeleteBackupRequestPhase.new,
    creationTimestamp := 0 }

/-- The concrete world of the tests "deleting an in progress backup isn't
allowed" and "existing deletion requests for the backup are deleted": the
Concurrency Guard marks backup `foo` active, and one sibling request for
the same backup exists. -/
def envTracked : Env :=
  { backups := []
    locations := []
    snapshotLocations := []
    restores := []
    requests := [reqTracked,
                 { nspace := "velero", name := "bar", backupName := "foo",
                   backupNameLabel := some "foo",
                   phase := DeleteBackupRequestPhase.unset, creationTimestamp := 0 }]
    tracker := [("velero", "foo")]
    deleteItemActions := 0
    snapshots := []
    patchRequestInProgressErr := none
    patchBackupDeletingErr := none
    getBackupContentsErr := none
    getSnapshotsErr := none
    deleteSnapshotErr := fun _ => none
    deleteRestoreClusterErr := fun _ => none
    deleteRestoreStorageErr := fun _ => none
    deleteBackupClusterErr := none
    deleteBackupStorageErr := none }

/-- The deletion request of the fatal-patch-failure scenario. -/
def reqPatchFail : DeleteBackupRequest :=
  { nspace := "velero", name := "foo-abcde", backupName := "foo",
    backupNameLabel := some "foo", phase := DeleteBackupRequestPhase.new,
    creationTimestamp := 0 }

/-- The concrete world of the test "patching to InProgress fails". -/
def envPatchFail : Env :=
  { backups := [{ nspace := "velero", name := "foo", uid := "uid", storageLocation := "primary" }]
    locations := [{ nspace := "velero", name := "primary", accessMode := BSLAccessMode.readWrite }]
    snapshotLocations := []
    restores := []
    requests := [reqPatchFail]
    tracker := []
    deleteItemActions := 0
    snapshots := []
    patchRequestInProgressErr := some "bad"
    patchBackupDeletingErr := none
    getBackupContentsErr := none
    getSnapshotsErr := none
    deleteSnapshotErr := fun _ => none
    deleteRestoreClusterErr := fun _ => none
    deleteRestoreStorageErr := fun _ => none
    deleteBackupClusterErr := none
    deleteBackupStorageErr := none }

/-- Like `envPatchFail` but with every patch succeeding. -/
def envPatchOk : Env :=
  { envPatchFail with patchRequestInProgressErr := none }

/-- The deletion request of the mixed-recoverable-failure scenario. -/
def reqC2Cascade : DeleteBackupRequest :=
  { nspace := "velero", name := "foo-abcde", backupName := "foo",
    backupNameLabel := some "foo", phase := DeleteBackupRequestPhase.new,
    creationTimestamp := 0 }

/-- A concrete world where two recoverable failures happen during the
cascade: the content-archive download fails (a delete-time item action
being registered) and one restore's storage deletion fails. -/
def envC2Cascade : Env :=
  { backups := [{ nspace := "velero", name := "foo", uid := "uid", storageLocation := "primary" }]
    locations := [{ nspace := "velero", name := "primary", accessMode := BSLAccessMode.readWrite }]
    snapshotLocations := []
    restores := [{ nspace := "velero", name := "restore-1", backupName := "foo" }]
    requests := [reqC2Cascade]
    tracker := []
    deleteItemActions := 1
    snapshots := []
    patchRequestInProgressErr := none
    patchBackupDeletingErr := none
    getBackupContentsErr := some "error downloading tarball"
    getSnapshotsErr := none
    deleteSnapshotErr := fun _ => none
    deleteRestoreClusterErr := fun _ => none
    deleteRestoreStorageErr := fun r =>
      if r.name = "restore-1" then some "error deleting restore storage" else none
    deleteBackupClusterErr := none
    deleteBackupStorageErr := none }

/-- A parser for witnesses: every string parses to a URL. -/
def witnessParseURL : String → Option URL := fun s => some { raw := s }

/-- A kubeconfig parser for witnesses: every kubeconfig yields a config
carrying its bytes. -/
def witnessKcParse : String → Except String RestConfig :=
  fun kc => Except.ok { source := ConfigSource.kubeconfigBytes kc }

/-- A factory for witnesses: flag-level fields only. -/
def witnessFactory : Factory :=
  { kubeconfig := "", kubecontext := "", srcClusterHost := "", destClusterHost := "",
    baseName := "velero", nspace := "velero", httpsProxy := "", httpProxy := "" }

/-- A secret list for witnesses: one shared `remotecluster` token-shape
secret. -/
def witnessSecretsShared : List Secret :=
  [{ name := "remotecluster",
     data := { host := "https://shared", saToken := "tok", kubeconfig := "", httpsProxy := "" } }]

/-- A secret list for witnesses: one `srccluster` kubeconfig-shape secret
carrying an https proxy. -/
def witnessSecretsSrc : List Secret :=
  [{ name := "srccluster",
     data := { host := "https://src", saToken := "", kubeconfig := "kcbytes",
               httpsProxy := "http://proxy" } }]

theorem serviceAcctCredsFromSecret_fst (f : Factory) (secrets : List Secret)
    (n : String) :
    (serviceAcctCredsFromSecret f (Except.ok secrets) n).1 =
      Except.ok (lookupSecretCreds secrets n) := by
  cases h : secrets.find? (fun item => item.name == n) with
  | none => simp [serviceAcctCredsFromSecret, lookupSecretCreds, h]
  | some item =>
      by_cases hp : f.httpsProxy = "" ∧ item.data.httpsProxy ≠ ""
      · simp [serviceAcctCredsFromSecret, lookupSecretCreds, h, hp, hp.1, hp.2]
      · simp only [serviceAcctCredsFromSecret, lookupSecretCreds, h]
        rw [if_neg hp]

theorem serviceAcctCredsFromSecret_snd (f : Factory) (secrets : List Secret)
    (n : String) :
    (serviceAcctCredsFromSecret f (Except.ok secrets) n).2 =
      stickyUpdate f (lookupSecretCreds secrets n) := by
  cases h : secrets.find? (fun item => item.name == n) with
  | none =>
      simp [serviceAcctCredsFromSecret, lookupSecretCreds, stickyUpdate, stickyProxy, h,
        ServiceAcctCreds.zero]
  | some item =>
      by_cases hp : f.httpsProxy = "" ∧ item.data.httpsProxy ≠ ""
      · simp [serviceAcctCredsFromSecret, lookupSecretCreds, stickyUpdate, stickyProxy, h,
          hp, hp.1, hp.2]
      · simp only [serviceAcctCredsFromSecret, lookupSecretCreds, stickyUpdate, stickyProxy, h]
        rw [if_neg hp, if_neg hp]

example :
    lookupSecretCreds
      [⟨"remotecluster", ⟨"h", "t", "", "p"⟩⟩, ⟨"srccluster", ⟨"h2", "t2", "", ""⟩⟩]
      "srccluster" = { host := "h2", saToken := "t2", kubeconfig := "", httpsProxy := "" } := by
  decide

theorem serviceAcctCredsFromSecret_ok (f : Factory) (secrets : List Secret)
    (n : String) :
    serviceAcctCredsFromSecret f (Except.ok secrets) n =
      (Except.ok (lookupSecretCreds secrets n),
       stickyUpdate f (lookupSecretCreds secrets n)) :=
  Prod.ext (serviceAcctCredsFromSecret_fst f secrets n)
    (serviceAcctCredsFromSecret_snd f secrets n)

theorem stickyUpdate_zero (f : Factory) :
    stickyUpdate f ServiceAcctCreds.zero = f := by
  cases f
  simp [stickyUpdate, stickyProxy, ServiceAcctCreds.zero]


theorem SourceClientConfig_ok (parseURL : String → Option URL)
    (kcParse : String → Except String RestConfig) (f : Factory)
    (secrets : List Secret) :
    SourceClientConfig parseURL kcParse f (Except.ok secrets) =
      (let creds := resolvedCreds secrets srcClusterSecretName
       let f1 := stickyUpdate f creds
       if creds ≠ ServiceAcctCreds.zero then
         let f2 := { f1 with srcClusterHost := creds.host }
         if creds.kubeconfig ≠ "" then
           (restConfigWithKubeConfig parseURL kcParse f2 creds, f2)
         else
           (Except.ok (restConfigWithSAToken parseURL f2 creds), f2)
       else
         (Except.ok (Config f1.kubeconfig f1.kubecontext f1.baseName), f1)) := by
  by_cases hz : lookupSecretCreds secrets remoteClusterSecretName = ServiceAcctCreds.zero
  · simp only [SourceClientConfig, serviceAcctCredsFromSecret_ok, resolvedCreds, hz,
      if_pos, stickyUpdate_zero]
  · simp only [SourceClientConfig, serviceAcctCredsFromSecret_ok, resolvedCreds, hz,
      if_neg, ite_false]

theorem DestinationClientConfig_ok (parseURL : String → Option URL)
    (kcParse : String → Except String RestConfig) (f : Factory)
    (secrets : List Secret) :
    DestinationClientConfig parseURL kcParse f (Except.ok secrets) =
      (let creds := resolvedCreds secrets destClusterSecretName
       let f1 := stickyUpdate f creds
       if creds ≠ ServiceAcctCreds.zero then
         let f2 := { f1 with destClusterHost := creds.host }
         if creds.kubeconfig ≠ "" then
           (restConfigWithKubeConfig parseURL kcParse f2 creds, f2)
         else
           (Except.ok (restConfigWithSAToken parseURL f2 creds), f2)
       else
         (Except.ok (Config f1.kubeconfig f1.kubecontext f1.baseName), f1)) := by
  by_cases hz : lookupSecretCreds secrets remoteClusterSecretName = ServiceAcctCreds.zero
  · simp only [DestinationClientConfig, serviceAcctCredsFromSecret_ok, resolvedCreds, hz,
      if_pos, stickyUpdate_zero]
  · simp only [DestinationClientConfig, serviceAcctCredsFromSecret_ok, resolvedCreds, hz,
      if_neg, ite_false]

/-! ## Claim theorems -/

/-- C7: a run of the expiry sweeper at time `now` deletes a DeletionRequest
if and only if its phase is Processed and its creation time is at or before
now minus 24 hours (the exactly-24-hours boundary counts as expired); a
request whose phase is unset, New or InProgress is never deleted regardless
of age; and each candidate's deletion is independent of the other
requests present. -/
theorem deleteExpiredRequests_characterization (now : Int)
    (requests : List DeleteBackupRequest) (r : DeleteBackupRequest) :
    (r ∈ deleteExpiredRequests now requests ↔
      r ∈ requests ∧ r.phase = DeleteBackupRequestPhase.processed ∧
        r.creationTimestamp ≤ now - maxRequestAge) ∧
    (r.phase ≠ DeleteBackupRequestPhase.processed →
      r ∉ deleteExpiredRequests now requests) ∧
    (r ∈ requests →
      (r ∈ deleteExpiredRequests now requests ↔ r ∈ deleteExpiredRequests now [r])) := by
  have hmain : r ∈ deleteExpiredRequests now requests ↔
      r ∈ requests ∧ r.phase = DeleteBackupRequestPhase.processed ∧
        r.creationTimestamp ≤ now - maxRequestAge := by
    simp [deleteExpiredRequests, List.mem_filter, and_assoc]
  refine ⟨hmain, ?_, ?_⟩
  · intro hp hmem
    exact hp (hmain.mp hmem).2.1
  · intro hr
    rw [hmain]
    simp [deleteExpiredRequests, List.mem_filter, hr, and_assoc]

theorem deleteExpiredRequests_characterization_witness :
    let boundary : DeleteBackupRequest :=
      { nspace := "ns", name := "expired-1", backupName := "b", backupNameLabel := none,
        phase := DeleteBackupRequestPhase.processed, creationTimestamp := 0 }
    let young : DeleteBackupRequest :=
      { nspace := "ns", name := "unexpired-2", backupName := "b", backupNameLabel := none,
        phase := DeleteBackupRequestPhase.processed, creationTimestamp := 1 }
    let stale : DeleteBackupRequest :=
      { nspace := "ns", name := "name", backupName := "b", backupNameLabel := none,
        phase := DeleteBackupRequestPhase.inProgress, creationTimestamp := 0 }
    boundary ∈ deleteExpiredRequests 86400 [boundary, young, stale] ∧
      young ∉ deleteExpiredRequests 86400 [boundary, young, stale] ∧
      stale ∉ deleteExpiredRequests 86400 [boundary, young, stale] := by
  intro boundary young stale
  refine ⟨?_, ?_, ?_⟩
  · exact (deleteExpiredRequests_characterization 86400 [boundary, young, stale] boundary).1.mpr
      ⟨by decide, by decide, by decide⟩
  · intro hmem
    have h := (deleteExpiredRequests_characterization 86400 [boundary, young, stale] young).1.mp hmem
    revert h
    decide
  · exact (deleteExpiredRequests_characterization 86400 [boundary, young, stale] stale).2.1
      (by decide)

/-- C8: the backup-name correlation label produced for a name within the
63-character limit is the name itself; for a longer name it is the
57-character truncated prefix of the name followed by the deterministic
6-character hash suffix, always exactly 63 characters long; and two long
names sharing the same 57-character prefix receive the same label exactly
when their hash suffixes coincide, so the label depends on the whole name
and not only on its truncated prefix. -/
theorem getValidName_label_spec (s t : String) :
    (s.length ≤ 63 → getValidName s = s) ∧
    (63 < s.length →
      getValidName s = String.mk (s.data.take 57 ++ (hashSuffix s).data) ∧
      (getValidName s).length = 63) ∧
    (63 < s.length → 63 < t.length → s.data.take 57 = t.data.take 57 →
      (getValidName s = getValidName t ↔ hashSuffix s = hashSuffix t)) := by
  refine ⟨?_, ?_, ?_⟩
  · intro h
    simp [getValidName, h]
  · intro h
    have hn : ¬ s.length ≤ 63 := not_le.mpr h
    refine ⟨by simp [getValidName, hn], ?_⟩
    have hlen : s.data.length = s.length := rfl
    simp only [getValidName, hn, if_false]
    show (s.data.take 57 ++ (hashSuffix s).data).length = 63
    rw [List.length_append, List.length_take]
    have h6 : (hashSuffix s).data.length = 6 := rfl
    rw [h6]
    omega
  · intro hs ht hpre
    have hns : ¬ s.length ≤ 63 := not_le.mpr hs
    have hnt : ¬ t.length ≤ 63 := not_le.mpr ht
    simp only [getValidName, hns, hnt, if_false]
    constructor
    · intro h
      have hdata : s.data.take 57 ++ (hashSuffix s).data =
          t.data.take 57 ++ (hashSuffix t).data := congrArg String.data h
      rw [hpre] at hdata
      have h2 : (hashSuffix s).data = (hashSuffix t).data := List.append_cancel_left hdata
      exact congrArg String.mk h2
    · intro h
      rw [hpre, h]

set_option maxRecDepth 4000 in
theorem getValidName_label_spec_witness :
    getValidName "foo" = "foo" ∧
    (getValidName
      "the-really-long-backup-name-that-is-much-more-than-63-characters").length = 63 ∧
    getValidName "the-really-long-backup-name-that-is-much-more-than-63-characters" ≠
      getValidName "the-really-long-backup-name-that-is-much-more-than-63-characterX" := by
  refine ⟨?_, ?_, ?_⟩
  · exact (getValidName_label_spec "foo" "foo").1 (by decide)
  · exact ((getValidName_label_spec
      "the-really-long-backup-name-that-is-much-more-than-63-characters"
      "the-really-long-backup-name-that-is-much-more-than-63-characters").2.1
      (by decide)).2
  · intro h
    have hiff := (getValidName_label_spec
      "the-really-long-backup-name-that-is-much-more-than-63-characters"
      "the-really-long-backup-name-that-is-much-more-than-63-characterX").2.2
      (by decide) (by decide) (by decide)
    have := hiff.mp h
    revert this
    decide

theorem stickyProxy_nonempty {f : Factory} (c : ServiceAcctCreds)
    (h : f.httpsProxy ≠ "") : stickyProxy f c = f.httpsProxy := by
  unfold stickyProxy
  rw [if_neg (fun hc => h hc.1)]

theorem restConfigWithSAToken_congr (parseURL : String → Option URL)
    {f g : Factory} (creds : ServiceAcctCreds) (h : f.httpsProxy = g.httpsProxy) :
    restConfigWithSAToken parseURL f creds = restConfigWithSAToken parseURL g creds := by
  simp [restConfigWithSAToken, setTransportProxy, h]

theorem restConfigWithKubeConfig_congr (parseURL : String → Option URL)
    (kcParse : String → Except String RestConfig) {f g : Factory}
    (creds : ServiceAcctCreds) (h : f.httpsProxy = g.httpsProxy) :
    restConfigWithKubeConfig parseURL kcParse f creds =
      restConfigWithKubeConfig parseURL kcParse g creds := by
  simp [restConfigWithKubeConfig, setTransportProxy, h]

theorem exceptIsOk_restConfigWithKubeConfig (parseURL : String → Option URL)
    (kcParse : String → Except String RestConfig) (f : Factory)
    (creds : ServiceAcctCreds) :
    exceptIsOk (restConfigWithKubeConfig parseURL kcParse f creds) =
      exceptIsOk (kcParse creds.kubeconfig) := by
  cases h : kcParse creds.kubeconfig <;> simp [restConfigWithKubeConfig, h, exceptIsOk]

/-- C5: every `SourceClientConfig` (respectively `DestinationClientConfig`)
call resolves credentials with this priority: the shared `remotecluster`
secret when it yields at least one non-empty field, else the role-specific
`srccluster` (respectively `destcluster`) secret when it yields at least one
non-empty field, else the local cluster configuration; and the resolution is
recomputed from the secrets passed to the call — factory state retained from
earlier calls (beyond the flag-level fields and the sticky https proxy)
never changes the result. -/
theorem clientConfig_resolution_priority (parseURL : String → Option URL)
    (kcParse : String → Except String RestConfig) (f : Factory)
    (secrets : List Secret) :
    (lookupSecretCreds secrets remoteClusterSecretName ≠ ServiceAcctCreds.zero →
      resolvedCreds secrets srcClusterSecretName =
        lookupSecretCreds secrets remoteClusterSecretName ∧
      resolvedCreds secrets destClusterSecretName =
        lookupSecretCreds secrets remoteClusterSecretName) ∧
    (lookupSecretCreds secrets remoteClusterSecretName = ServiceAcctCreds.zero →
      resolvedCreds secrets srcClusterSecretName =
        lookupSecretCreds secrets srcClusterSecretName ∧
      resolvedCreds secrets destClusterSecretName =
        lookupSecretCreds secrets destClusterSecretName) ∧
    (resolvedCreds secrets srcClusterSecretName ≠ ServiceAcctCreds.zero →
      (SourceClientConfig parseURL kcParse f (Except.ok secrets)).1 =
        (if (resolvedCreds secrets srcClusterSecretName).kubeconfig ≠ "" then
           restConfigWithKubeConfig parseURL kcParse
             { stickyUpdate f (resolvedCreds secrets srcClusterSecretName) with
               srcClusterHost := (resolvedCreds secrets srcClusterSecretName).host }
             (resolvedCreds secrets srcClusterSecretName)
         else
           Except.ok (restConfigWithSAToken parseURL
             { stickyUpdate f (resolvedCreds secrets srcClusterSecretName) with
               srcClusterHost := (resolvedCreds secrets srcClusterSecretName).host }
             (resolvedCreds secrets srcClusterSecretName)))) ∧
    (resolvedCreds secrets srcClusterSecretName = ServiceAcctCreds.zero →
      (SourceClientConfig parseURL kcParse f (Except.ok secrets)).1 =
        Except.ok (Config f.kubeconfig f.kubecontext f.baseName)) ∧
    (resolvedCreds secrets destClusterSecretName ≠ ServiceAcctCreds.zero →
      (DestinationClientConfig parseURL kcParse f (Except.ok secrets)).1 =
        (if (resolvedCreds secrets destClusterSecretName).kubeconfig ≠ "" then
           restConfigWithKubeConfig parseURL kcParse
             { stickyUpdate f (resolvedCreds secrets destClusterSecretName) with
               destClusterHost := (resolvedCreds secrets destClusterSecretName).host }
             (resolvedCreds secrets destClusterSecretName)
         else
           Except.ok (restConfigWithSAToken parseURL
             { stickyUpdate f (resolvedCreds secrets destClusterSecretName) with
               destClusterHost := (resolvedCreds secrets destClusterSecretName).host }
             (resolvedCreds secrets destClusterSecretName)))) ∧
    (resolvedCreds secrets destClusterSecretName = ServiceAcctCreds.zero →
      (DestinationClientConfig parseURL kcParse f (Except.ok secrets)).1 =
        Except.ok (Config f.kubeconfig f.kubecontext f.baseName)) ∧
    (∀ g : Factory, g.httpsProxy = f.httpsProxy → g.kubeconfig = f.kubeconfig →
      g.kubecontext = f.kubecontext → g.baseName = f.baseName →
      (SourceClientConfig parseURL kcParse g (Except.ok secrets)).1 =
        (SourceClientConfig parseURL kcParse f (Except.ok secrets)).1 ∧
      (DestinationClientConfig parseURL kcParse g (Except.ok secrets)).1 =
        (DestinationClientConfig parseURL kcParse f (Except.ok secrets)).1) := by
  refine ⟨?_, ?_, ?_, ?_, ?_, ?_, ?_⟩
  · intro h
    constructor <;> simp [resolvedCreds, h]
  · intro h
    constructor <;> simp [resolvedCreds, h]
  · intro h
    by_cases hk : (resolvedCreds secrets srcClusterSecretName).kubeconfig = "" <;>
      simp [SourceClientConfig_ok, h, hk]
  · intro h
    simp [SourceClientConfig_ok, h, stickyUpdate_zero]
  · intro h
    by_cases hk : (resolvedCreds secrets destClusterSecretName).kubeconfig = "" <;>
      simp [DestinationClientConfig_ok, h, hk]
  · intro h
    simp [DestinationClientConfig_ok, h, stickyUpdate_zero]
  · intro g hp hk hc hb
    have hsp : ∀ c, stickyProxy g c = stickyProxy f c := by
      intro c
      simp [stickyProxy, hp]
    constructor
    · by_cases hz : resolvedCreds secrets srcClusterSecretName = ServiceAcctCreds.zero
      · simp [SourceClientConfig_ok, hz, stickyUpdate_zero, hk, hc, hb]
      · by_cases hkc : (resolvedCreds secrets srcClusterSecretName).kubeconfig = ""
        · simp [SourceClientConfig_ok, hz, hkc, restConfigWithSAToken, setTransportProxy,
            stickyUpdate, stickyProxy, hp]
        · cases hkk : kcParse (resolvedCreds secrets srcClusterSecretName).kubeconfig <;>
            simp [SourceClientConfig_ok, hz, hkc, restConfigWithKubeConfig,
              setTransportProxy, stickyUpdate, stickyProxy, hp, hkk]
    · by_cases hz : resolvedCreds secrets destClusterSecretName = ServiceAcctCreds.zero
      · simp [DestinationClientConfig_ok, hz, stickyUpdate_zero, hk, hc, hb]
      · by_cases hkc : (resolvedCreds secrets destClusterSecretName).kubeconfig = ""
        · simp [DestinationClientConfig_ok, hz, hkc, restConfigWithSAToken,
            setTransportProxy, stickyUpdate, stickyProxy, hp]
        · cases hkk : kcParse (resolvedCreds secrets destClusterSecretName).kubeconfig <;>
            simp [DestinationClientConfig_ok, hz, hkc, restConfigWithKubeConfig,
              setTransportProxy, stickyUpdate, stickyProxy, hp, hkk]

/-- C6: for every secret-based credential resolution, a non-empty kubeconfig
field makes the client config the kubeconfig parser's output used as-is (no
bearer-token or insecure setting applied by the factory, only the optional
proxy wrap); an empty kubeconfig field makes the config the bare host URL
plus service-account token shape, in which transport certificate validation
is disabled (TLS Insecure set to true). -/
theorem credentialShape_config (parseURL : String → Option URL)
    (kcParse : String → Except String RestConfig) (f : Factory)
    (creds : ServiceAcctCreds) (secrets : List Secret) :
    ((restConfigWithSAToken parseURL f creds).host = some creds.host ∧
     (restConfigWithSAToken parseURL f creds).bearerToken = some creds.saToken ∧
     (restConfigWithSAToken parseURL f creds).tlsInsecure = some true) ∧
    (∀ cfg, kcParse creds.kubeconfig = Except.ok cfg →
      ∃ out, restConfigWithKubeConfig parseURL kcParse f creds = Except.ok out ∧
        out.source = cfg.source ∧ out.host = cfg.host ∧
        out.bearerToken = cfg.bearerToken ∧ out.tlsInsecure = cfg.tlsInsecure) ∧
    (resolvedCreds secrets srcClusterSecretName = creds → creds ≠ ServiceAcctCreds.zero →
      (creds.kubeconfig ≠ "" →
        (SourceClientConfig parseURL kcParse f (Except.ok secrets)).1 =
          restConfigWithKubeConfig parseURL kcParse
            { stickyUpdate f creds with srcClusterHost := creds.host } creds) ∧
      (creds.kubeconfig = "" →
        (SourceClientConfig parseURL kcParse f (Except.ok secrets)).1 =
          Except.ok (restConfigWithSAToken parseURL
            { stickyUpdate f creds with srcClusterHost := creds.host } creds))) := by
  refine ⟨?_, ?_, ?_⟩
  · by_cases hps : f.httpsProxy = "" <;>
      simp [restConfigWithSAToken, setTransportProxy, hps]
  · intro cfg hkc
    by_cases hps : f.httpsProxy = ""
    · exact ⟨cfg, by simp [restConfigWithKubeConfig, hkc, hps], rfl, rfl, rfl, rfl⟩
    · exact ⟨setTransportProxy parseURL cfg f.httpsProxy,
        by simp [restConfigWithKubeConfig, hkc, hps], rfl, rfl, rfl, rfl⟩
  · intro hres hnz
    constructor
    · intro hkc
      simp [SourceClientConfig_ok, hres, hnz, hkc]
    · intro hkc
      simp [SourceClientConfig_ok, hres, hnz, hkc]

/-- C9: the URL parse error inside the transport-proxy setter is discarded:
injecting any proxy string (malformed ones included) into a client
configuration never makes configuration building fail — the setter installs
the (possibly nil) parse result, and whether building a source or
destination config succeeds is independent of the proxy value and of the
URL parser's behaviour. -/
theorem malformedProxy_not_rejected (parseURL : String → Option URL)
    (kcParse : String → Except String RestConfig) (f : Factory)
    (creds : ServiceAcctCreds) (cfg : RestConfig) (proxy : String)
    (secrets : List Secret) :
    (setTransportProxy parseURL cfg proxy =
      { cfg with transportProxy := some (parseURL proxy) }) ∧
    (f.httpsProxy ≠ "" → parseURL f.httpsProxy = none →
      (restConfigWithSAToken parseURL f creds).transportProxy = some none) ∧
    (∀ parseURL2 : String → Option URL, ∀ p1 p2 : String,
      exceptIsOk (SourceClientConfig parseURL kcParse
          { f with httpsProxy := p1 } (Except.ok secrets)).1 =
        exceptIsOk (SourceClientConfig parseURL2 kcParse
          { f with httpsProxy := p2 } (Except.ok secrets)).1 ∧
      exceptIsOk (DestinationClientConfig parseURL kcParse
          { f with httpsProxy := p1 } (Except.ok secrets)).1 =
        exceptIsOk (DestinationClientConfig parseURL2 kcParse
          { f with httpsProxy := p2 } (Except.ok secrets)).1) := by
  refine ⟨rfl, ?_, ?_⟩
  · intro h hn
    simp [restConfigWithSAToken, setTransportProxy, h, hn]
  · intro parseURL2 p1 p2
    constructor
    · by_cases hz : resolvedCreds secrets srcClusterSecretName = ServiceAcctCreds.zero
      · simp [SourceClientConfig_ok, hz, exceptIsOk]
      · by_cases hkc : (resolvedCreds secrets srcClusterSecretName).kubeconfig = ""
        · simp [SourceClientConfig_ok, hz, hkc, exceptIsOk]
        · simp [SourceClientConfig_ok, hz, hkc, exceptIsOk_restConfigWithKubeConfig]
    · by_cases hz : resolvedCreds secrets destClusterSecretName = ServiceAcctCreds.zero
      · simp [DestinationClientConfig_ok, hz, exceptIsOk]
      · by_cases hkc : (resolvedCreds secrets destClusterSecretName).kubeconfig = ""
        · simp [DestinationClientConfig_ok, hz, hkc, exceptIsOk]
        · simp [DestinationClientConfig_ok, hz, hkc, exceptIsOk_restConfigWithKubeConfig]

/-- C10: the factory's https-proxy setting is sticky — once non-empty, no
secret read or client-config call changes it; while it is empty, the first
secret read carrying a non-empty https_proxy value sets it; and whenever it
is non-empty it is the proxy injected into every token-shape and
kubeconfig-shape config subsequently built. -/
theorem httpsProxy_sticky (parseURL : String → Option URL)
    (kcParse : String → Except String RestConfig) (f : Factory)
    (secretsList : Except String (List Secret)) (secrets : List Secret)
    (n : String) (creds : ServiceAcctCreds) :
    (f.httpsProxy ≠ "" →
      ((serviceAcctCredsFromSecret f (Except.ok secrets) n).2).httpsProxy = f.httpsProxy) ∧
    (f.httpsProxy ≠ "" →
      ((SourceClientConfig parseURL kcParse f secretsList).2).httpsProxy = f.httpsProxy ∧
      ((DestinationClientConfig parseURL kcParse f secretsList).2).httpsProxy = f.httpsProxy) ∧
    (f.httpsProxy = "" → (lookupSecretCreds secrets n).httpsProxy ≠ "" →
      ((serviceAcctCredsFromSecret f (Except.ok secrets) n).2).httpsProxy =
        (lookupSecretCreds secrets n).httpsProxy) ∧
    (f.httpsProxy ≠ "" →
      (restConfigWithSAToken parseURL f creds).transportProxy =
        some (parseURL f.httpsProxy) ∧
      ∀ cfg, kcParse creds.kubeconfig = Except.ok cfg →
        restConfigWithKubeConfig parseURL kcParse f creds =
          Except.ok { cfg with transportProxy := some (parseURL f.httpsProxy) }) := by
  refine ⟨?_, ?_, ?_, ?_⟩
  · intro h
    rw [serviceAcctCredsFromSecret_snd]
    exact stickyProxy_nonempty _ h
  · intro h
    cases secretsList with
    | error e => exact ⟨rfl, rfl⟩
    | ok s2 =>
        constructor
        · rw [SourceClientConfig_ok]
          by_cases hz : resolvedCreds s2 srcClusterSecretName = ServiceAcctCreds.zero
          · simp [hz, stickyUpdate_zero]
          · by_cases hkc : (resolvedCreds s2 srcClusterSecretName).kubeconfig = "" <;>
              simp [hz, hkc, stickyUpdate, stickyProxy_nonempty _ h]
        · rw [DestinationClientConfig_ok]
          by_cases hz : resolvedCreds s2 destClusterSecretName = ServiceAcctCreds.zero
          · simp [hz, stickyUpdate_zero]
          · by_cases hkc : (resolvedCreds s2 destClusterSecretName).kubeconfig = "" <;>
              simp [hz, hkc, stickyUpdate, stickyProxy_nonempty _ h]
  · intro h hlp
    rw [serviceAcctCredsFromSecret_snd]
    show stickyProxy f _ = _
    unfold stickyProxy
    rw [if_pos ⟨h, hlp⟩]
  · intro h
    constructor
    · simp [restConfigWithSAToken, setTransportProxy, h]
    · intro cfg hkc
      simp [restConfigWithKubeConfig, hkc, h, setTransportProxy]

theorem mem_restoreDeleteActions {rs : List Restore} {ns nm : String}
    (h : Action.deleteRestoreCluster ns nm ∈ restoreDeleteActions rs) :
    ∃ r, r ∈ rs ∧ r.nspace = ns ∧ r.name = nm := by
  induction rs with
  | nil => simp [restoreDeleteActions] at h
  | cons a t ih =>
      simp only [restoreDeleteActions, List.flatMap_cons] at h
      rcases List.mem_append.mp h with h1 | h2
      · rcases List.mem_cons.mp h1 with he | h1b
        · obtain ⟨hns, hnm⟩ := Action.deleteRestoreCluster.inj he
          exact ⟨a, by simp, hns.symm, hnm.symm⟩
        · rcases List.mem_cons.mp h1b with he2 | h1c
          · exact absurd he2 (by simp)
          · simp at h1c
      · obtain ⟨r, hrt, h1, h2⟩ := ih h2
        exact ⟨r, by simp [hrt], h1, h2⟩

theorem flatMap_nil {α β : Type} {l : List α} {f : α → List β}
    (h : ∀ x ∈ l, f x = []) : l.flatMap f = [] := by
  induction l with
  | nil => rfl
  | cons a t ih =>
      simp only [List.flatMap_cons, h a (by simp), List.nil_append]
      exact ih (fun x hx => h x (by simp [hx]))

theorem cascadeErrors_eq_nil (env : Env) (req : DeleteBackupRequest) (b : Backup)
    (hse : env.getSnapshotsErr = none)
    (hsd : ∀ s, env.deleteSnapshotErr s = none)
    (hsl : ∀ s ∈ env.snapshots,
      (env.snapshotLocations.find? (fun v => v.nspace == req.nspace && v.name == s.location)).isSome)
    (hrc : ∀ r, env.deleteRestoreClusterErr r = none)
    (hrs : ∀ r, env.deleteRestoreStorageErr r = none)
    (hbc : env.deleteBackupClusterErr = none)
    (hbs : env.deleteBackupStorageErr = none) :
    cascadeErrors env req b = [] := by
  have h1 : snapshotErrors env req = [] := by
    unfold snapshotErrors
    rw [hse]
    apply flatMap_nil
    intro s hs
    cases hfind : env.snapshotLocations.find?
        (fun v => v.nspace == req.nspace && v.name == s.location) with
    | none =>
        have := hsl s hs
        rw [hfind] at this
        simp at this
    | some v => simp [hfind, hsd s]
  have h2 : restoreDeleteErrors env (correlatedRestores env req b) = [] := by
    apply flatMap_nil
    intro r _
    simp [hrc r, hrs r]
  unfold cascadeErrors
  rw [h1, h2, hbc, hbs]
  rfl

theorem processRequest_success_eval (env : Env) (req : DeleteBackupRequest)
    (b : Backup) (loc : BackupStorageLocation)
    (hname : req.backupName ≠ "")
    (ht : trackerContains env req.nspace req.backupName = false)
    (hb : lookupBackup env req.nspace req.backupName = some b)
    (hl : lookupLocation env b.nspace b.storageLocation = some loc)
    (hm : loc.accessMode ≠ BSLAccessMode.readOnly)
    (hip : env.patchRequestInProgressErr = none)
    (hbd : env.patchBackupDeletingErr = none) :
    processRequest env req =
      { err := none
        actions := deleteExistingDeletionRequests env req ++
          [Action.getBackup req.nspace req.backupName,
           Action.patchRequestInProgress (getValidName b.name),
           Action.patchRequestUIDLabel b.uid,
           Action.patchBackupDeleting b.nspace b.name] ++
          restoreDeleteActions (correlatedRestores env req b) ++
          [Action.deleteBackupCluster req.nspace b.name,
           Action.deleteBackupStorage b.name,
           Action.patchRequestProcessed (cascadeErrors env req b),
           Action.deleteRequestCollection req.nspace (getValidName b.name) b.uid]
        deletedSnapshots := requestedSnapshotDeletions env req
        downloadAttempted := decide (0 < env.deleteItemActions) } := by
  simp [processRequest, hname, ht, hb, hl, hm, hip, hbd]

theorem processRequest_inProgressFail_eval (env : Env) (req : DeleteBackupRequest)
    (b : Backup) (loc : BackupStorageLocation) (e : String)
    (hname : req.backupName ≠ "")
    (ht : trackerContains env req.nspace req.backupName = false)
    (hb : lookupBackup env req.nspace req.backupName = some b)
    (hl : lookupLocation env b.nspace b.storageLocation = some loc)
    (hm : loc.accessMode ≠ BSLAccessMode.readOnly)
    (hip : env.patchRequestInProgressErr = some e) :
    processRequest env req =
      { err := some ("error patching DeleteBackupRequest: " ++ e)
        actions := deleteExistingDeletionRequests env req ++
          [Action.getBackup req.nspace req.backupName,
           Action.patchRequestInProgress (getValidName b.name)]
        deletedSnapshots := []
        downloadAttempted := false } := by
  simp [processRequest, hname, ht, hb, hl, hm, hip]

theorem processRequest_deletingFail_eval (env : Env) (req : DeleteBackupRequest)
    (b : Backup) (loc : BackupStorageLocation) (e : String)
    (hname : req.backupName ≠ "")
    (ht : trackerContains env req.nspace req.backupName = false)
    (hb : lookupBackup env req.nspace req.backupName = some b)
    (hl : lookupLocation env b.nspace b.storageLocation = some loc)
    (hm : loc.accessMode ≠ BSLAccessMode.readOnly)
    (hip : env.patchRequestInProgressErr = none)
    (hbd : env.patchBackupDeletingErr = some e) :
    processRequest env req =
      { err := some ("error patching Backup: " ++ e)
        actions := deleteExistingDeletionRequests env req ++
          [Action.getBackup req.nspace req.backupName,
           Action.patchRequestInProgress (getValidName b.name),
           Action.patchRequestUIDLabel b.uid,
           Action.patchBackupDeleting b.nspace b.name]
        deletedSnapshots := []
        downloadAttempted := false } := by
  simp [processRequest, hname, ht, hb, hl, hm, hip, hbd]

/-- C3: when the Concurrency Guard marks the target backup active,
processRequest immediately patches the request to Processed with the single
error "backup is still in progress", returns no error, and performs no
mutation or deletion of any Backup, Restore or storage object (the only
other operations are deletions of sibling DeletionRequest objects). -/
theorem processRequest_tracked_no_destruction (env : Env) (req : DeleteBackupRequest)
    (hname : req.backupName ≠ "")
    (ht : trackerContains env req.nspace req.backupName = true) :
    processRequest env req =
      { err := none
        actions := deleteExistingDeletionRequests env req ++
          [Action.patchRequestProcessed ["backup is still in progress"]]
        deletedSnapshots := []
        downloadAttempted := false } ∧
    ∀ a ∈ (processRequest env req).actions,
      (∃ ns nm, a = Action.deleteRequest ns nm) ∨
      a = Action.patchRequestProcessed ["backup is still in progress"] := by
  have heq : processRequest env req =
      { err := none
        actions := deleteExistingDeletionRequests env req ++
          [Action.patchRequestProcessed ["backup is still in progress"]]
        deletedSnapshots := []
        downloadAttempted := false } := by
    simp [processRequest, hname, ht, ProcessResult.terminal]
  refine ⟨heq, ?_⟩
  intro a ha
  rw [heq] at ha
  rcases List.mem_append.mp ha with h | h
  · left
    obtain ⟨r, _, rfl⟩ := List.mem_map.mp h
    exact ⟨r.nspace, r.name, rfl⟩
  · right
    simpa using h

/-- C2 (amended): once a request passes validation (non-empty backup name,
backup not tracked as active, backup and writable storage location found),
processRequest returns a non-nil error exactly when the patch of the
request to InProgress fails or the patch of the Backup to Deleting fails;
when neither fails it returns nil, every recoverable snapshot,
restore-deletion and backup-deletion failure is recorded in the final
Processed patch's error list, and the remaining cascade steps — backup
deletion from cluster and storage and the final request-collection
deletion — are still attempted.  The content-archive download failure is
the exception: it is logged only, so the download outcome changes neither
the returned error nor the recorded actions and error list. -/
theorem processRequest_fatal_error_classification (env : Env)
    (req : DeleteBackupRequest) (b : Backup) (loc : BackupStorageLocation)
    (hname : req.backupName ≠ "")
    (ht : trackerContains env req.nspace req.backupName = false)
    (hb : lookupBackup env req.nspace req.backupName = some b)
    (hl : lookupLocation env b.nspace b.storageLocation = some loc)
    (hm : loc.accessMode ≠ BSLAccessMode.readOnly) :
    ((processRequest env req).err ≠ none ↔
      env.patchRequestInProgressErr ≠ none ∨ env.patchBackupDeletingErr ≠ none) ∧
    (env.patchRequestInProgressErr = none → env.patchBackupDeletingErr = none →
      (processRequest env req).err = none ∧
      Action.deleteBackupCluster req.nspace b.name ∈ (processRequest env req).actions ∧
      Action.deleteBackupStorage b.name ∈ (processRequest env req).actions ∧
      Action.patchRequestProcessed (cascadeErrors env req b) ∈ (processRequest env req).actions ∧
      Action.deleteRequestCollection req.nspace (getValidName b.name) b.uid ∈
        (processRequest env req).actions ∧
      (∀ e, e ∈ snapshotErrors env req → e ∈ cascadeErrors env req b) ∧
      (∀ e, e ∈ restoreDeleteErrors env (correlatedRestores env req b) →
        e ∈ cascadeErrors env req b) ∧
      (∀ e, env.deleteBackupClusterErr = some e → e ∈ cascadeErrors env req b) ∧
      (∀ e, env.deleteBackupStorageErr = some e → e ∈ cascadeErrors env req b)) ∧
    (∀ d : Option String,
      (processRequest { env with getBackupContentsErr := d } req).err =
        (processRequest env req).err ∧
      (processRequest { env with getBackupContentsErr := d } req).actions =
        (processRequest env req).actions) := by
  refine ⟨?_, ?_, ?_⟩
  · cases hip : env.patchRequestInProgressErr with
    | some e =>
        rw [processRequest_inProgressFail_eval env req b loc e hname ht hb hl hm hip]
        simp
    | none =>
        cases hbd : env.patchBackupDeletingErr with
        | some e =>
            rw [processRequest_deletingFail_eval env req b loc e hname ht hb hl hm hip hbd]
            simp
        | none =>
            rw [processRequest_success_eval env req b loc hname ht hb hl hm hip hbd]
            simp
  · intro hip hbd
    rw [processRequest_success_eval env req b loc hname ht hb hl hm hip hbd]
    refine ⟨rfl, by simp, by simp, by simp, by simp, ?_, ?_, ?_, ?_⟩
    · intro e he
      simp [cascadeErrors, he]
    · intro e he
      simp [cascadeErrors, he]
    · intro e he
      simp [cascadeErrors, he]
    · intro e he
      simp [cascadeErrors, he]
  · intro d
    exact ⟨rfl, rfl⟩

/-- C2 counterexample: at a concrete input where, besides a failing
restore-storage deletion, the content-archive download fails (a delete-time
item action being registered), processRequest returns nil and the final
Processed patch records the restore-storage failure but not the download
failure — refuting that every non-fatal failure is recorded in the
request's status error list. -/
theorem processRequest_not_every_failure_recorded :
    (processRequest envC2Cascade reqC2Cascade).err = none ∧
    (processRequest envC2Cascade reqC2Cascade).downloadAttempted = true ∧
    (processRequest envC2Cascade reqC2Cascade).actions =
      [Action.getBackup "velero" "foo",
       Action.patchRequestInProgress "foo",
       Action.patchRequestUIDLabel "uid",
       Action.patchBackupDeleting "velero" "foo",
       Action.deleteRestoreCluster "velero" "restore-1",
       Action.deleteRestoreStorage "restore-1",
       Action.deleteBackupCluster "velero" "foo",
       Action.deleteBackupStorage "foo",
       Action.patchRequestProcessed ["error deleting restore storage"],
       Action.deleteRequestCollection "velero" "foo" "uid"] ∧
    Action.patchRequestProcessed
        ["error downloading tarball", "error deleting restore storage"] ∉
      (processRequest envC2Cascade reqC2Cascade).actions := by
  refine ⟨by decide, by decide, by decide, by decide⟩

/-- C1 counterexample: at a concrete input satisfying all of the claim's
hypotheses (the backup exists, its storage location exists and is writable,
every cascade step succeeds), processRequest fetches the backup before
patching the request to InProgress, so the action sequence differs from the
claimed one, which puts the InProgress patch first. -/
theorem processRequest_claimed_order_refuted :
    (processRequest envFullDelete reqFullDelete).err = none ∧
    (processRequest envFullDelete reqFullDelete).actions =
      [Action.getBackup "velero" "foo",
       Action.patchRequestInProgress "foo",
       Action.patchRequestUIDLabel "uid",
       Action.patchBackupDeleting "velero" "foo",
       Action.deleteRestoreCluster "velero" "restore-1",
       Action.deleteRestoreStorage "restore-1",
       Action.deleteRestoreCluster "velero" "restore-2",
       Action.deleteRestoreStorage "restore-2",
       Action.deleteBackupCluster "velero" "foo",
       Action.deleteBackupStorage "foo",
       Action.patchRequestProcessed [],
       Action.deleteRequestCollection "velero" "foo" "uid"] ∧
    (processRequest envFullDelete reqFullDelete).actions ≠ claimedFullDeleteSequence := by
  refine ⟨by decide, by decide, by decide⟩

/-- C1 (amended): for every deletion request whose target backup exists,
whose storage location exists and is writable, for which every cascade step
succeeds and no sibling DeletionRequest for the same backup is present,
processRequest performs exactly: fetch the backup, patch the request to
InProgress with the backup-name label, patch the backup-UID label onto the
request, patch the Backup's phase to Deleting, delete every correlated
Restore from the cluster and from storage, delete the Backup from the
cluster and from storage, patch the request to Processed with an empty
error list, and delete all DeletionRequest objects matching the backup's
name+UID label pair; a Restore correlated to a different backup name is
never deleted. -/
theorem processRequest_full_delete_sequence (env : Env) (req : DeleteBackupRequest)
    (b : Backup) (loc : BackupStorageLocation)
    (hname : req.backupName ≠ "")
    (ht : trackerContains env req.nspace req.backupName = false)
    (hb : lookupBackup env req.nspace req.backupName = some b)
    (hl : lookupLocation env b.nspace b.storageLocation = some loc)
    (hm : loc.accessMode ≠ BSLAccessMode.readOnly)
    (hdedup : deleteExistingDeletionRequests env req = [])
    (hip : env.patchRequestInProgressErr = none)
    (hbd : env.patchBackupDeletingErr = none)
    (hse : env.getSnapshotsErr = none)
    (hsd : ∀ s, env.deleteSnapshotErr s = none)
    (hsl : ∀ s ∈ env.snapshots,
      (env.snapshotLocations.find? (fun v => v.nspace == req.nspace && v.name == s.location)).isSome)
    (hrc : ∀ r, env.deleteRestoreClusterErr r = none)
    (hrs : ∀ r, env.deleteRestoreStorageErr r = none)
    (hbc : env.deleteBackupClusterErr = none)
    (hbs : env.deleteBackupStorageErr = none) :
    (processRequest env req).err = none ∧
    (processRequest env req).actions =
      [Action.getBackup req.nspace req.backupName,
       Action.patchRequestInProgress (getValidName b.name),
       Action.patchRequestUIDLabel b.uid,
       Action.patchBackupDeleting b.nspace b.name] ++
      restoreDeleteActions (correlatedRestores env req b) ++
      [Action.deleteBackupCluster req.nspace b.name,
       Action.deleteBackupStorage b.name,
       Action.patchRequestProcessed [],
       Action.deleteRequestCollection req.nspace (getValidName b.name) b.uid] ∧
    (∀ ns nm, Action.deleteRestoreCluster ns nm ∈ (processRequest env req).actions →
      ∃ r, r ∈ env.restores ∧ r.nspace = ns ∧ r.name = nm ∧ r.backupName = b.name) := by
  have heval := processRequest_success_eval env req b loc hname ht hb hl hm hip hbd
  have hnil := cascadeErrors_eq_nil env req b hse hsd hsl hrc hrs hbc hbs
  have hact : (processRequest env req).actions =
      ([Action.getBackup req.nspace req.backupName,
        Action.patchRequestInProgress (getValidName b.name),
        Action.patchRequestUIDLabel b.uid,
        Action.patchBackupDeleting b.nspace b.name] ++
       restoreDeleteActions (correlatedRestores env req b)) ++
      [Action.deleteBackupCluster req.nspace b.name,
       Action.deleteBackupStorage b.name,
       Action.patchRequestProcessed [],
       Action.deleteRequestCollection req.nspace (getValidName b.name) b.uid] := by
    rw [heval]
    simp [hdedup, hnil]
  refine ⟨by rw [heval], by rw [hact], ?_⟩
  intro ns nm hmem
  rw [hact] at hmem
  rcases List.mem_append.mp hmem with h12 | h3
  · rcases List.mem_append.mp h12 with h1 | h2
    · simp at h1
    · obtain ⟨r, hr, hns, hnm⟩ := mem_restoreDeleteActions h2
      simp only [correlatedRestores] at hr
      have hr2 := List.mem_filter.mp hr
      have hcond := hr2.2
      simp only [Bool.and_eq_true, beq_iff_eq] at hcond
      exact ⟨r, hr2.1, hns, hnm, hcond.2⟩
  · simp at h3

/-- C4 counterexample: at a concrete input with one registered delete-time
item-action plugin and a failing content-archive download, processing runs
to completion, the backup is deleted from the cluster and from storage, the
request reaches Processed and processRequest returns nil — but the final
Processed patch carries an empty error list: the download failure is logged
only, never accumulated into the request's status error list. -/
theorem processRequest_download_error_unrecorded :
    (processRequest envTarballFail reqTarballFail).err = none ∧
    (processRequest envTarballFail reqTarballFail).downloadAttempted = true ∧
    (processRequest envTarballFail reqTarballFail).actions =
      [Action.getBackup "velero" "foo",
       Action.patchRequestInProgress "foo",
       Action.patchRequestUIDLabel "uid",
       Action.patchBackupDeleting "velero" "foo",
       Action.deleteBackupCluster "velero" "foo",
       Action.deleteBackupStorage "foo",
       Action.patchRequestProcessed [],
       Action.deleteRequestCollection "velero" "foo" "uid"] ∧
    Action.patchRequestProcessed ["error downloading tarball"] ∉
      (processRequest envTarballFail reqTarballFail).actions := by
  refine ⟨by decide, by decide, by decide, by decide⟩

/-- C4 (amended): with at least one delete-time item-action plugin
registered and a failing content-archive download, processing still runs to
completion — the archive download is attempted, the Backup object and its
storage record are deleted, the request reaches Processed and
processRequest returns nil — and the download failure is logged only, not
accumulated: with every other cascade step succeeding the final Processed
patch carries an empty error list. -/
theorem processRequest_download_failure_nonfatal (env : Env)
    (req : DeleteBackupRequest) (b : Backup) (loc : BackupStorageLocation) (e : String)
    (hname : req.backupName ≠ "")
    (ht : trackerContains env req.nspace req.backupName = false)
    (hb : lookupBackup env req.nspace req.backupName = some b)
    (hl : lookupLocation env b.nspace b.storageLocation = some loc)
    (hm : loc.accessMode ≠ BSLAccessMode.readOnly)
    (hdia : 0 < env.deleteItemActions)
    (_hdl : env.getBackupContentsErr = some e)
    (hip : env.patchRequestInProgressErr = none)
    (hbd : env.patchBackupDeletingErr = none)
    (hse : env.getSnapshotsErr = none)
    (hsd : ∀ s, env.deleteSnapshotErr s = none)
    (hsl : ∀ s ∈ env.snapshots,
      (env.snapshotLocations.find? (fun v => v.nspace == req.nspace && v.name == s.location)).isSome)
    (hrc : ∀ r, env.deleteRestoreClusterErr r = none)
    (hrs : ∀ r, env.deleteRestoreStorageErr r = none)
    (hbc : env.deleteBackupClusterErr = none)
    (hbs : env.deleteBackupStorageErr = none) :
    (processRequest env req).err = none ∧
    (processRequest env req).downloadAttempted = true ∧
    Action.deleteBackupCluster req.nspace b.name ∈ (processRequest env req).actions ∧
    Action.deleteBackupStorage b.name ∈ (processRequest env req).actions ∧
    Action.patchRequestProcessed [] ∈ (processRequest env req).actions := by
  have heval := processRequest_success_eval env req b loc hname ht hb hl hm hip hbd
  have hnil := cascadeErrors_eq_nil env req b hse hsd hsl hrc hrs hbc hbs
  rw [heval]
  refine ⟨rfl, by simp [hdia], by simp, by simp, ?_⟩
  rw [← hnil]
  simp

theorem processRequest_full_delete_sequence_witness :
    (processRequest envFullDelete reqFullDelete).err = none ∧
    (processRequest envFullDelete reqFullDelete).actions =
      [Action.getBackup "velero" "foo",
       Action.patchRequestInProgress (getValidName "foo"),
       Action.patchRequestUIDLabel "uid",
       Action.patchBackupDeleting "velero" "foo"] ++
      restoreDeleteActions (correlatedRestores envFullDelete reqFullDelete
        { nspace := "velero", name := "foo", uid := "uid", storageLocation := "primary" }) ++
      [Action.deleteBackupCluster "velero" "foo",
       Action.deleteBackupStorage "foo",
       Action.patchRequestProcessed [],
       Action.deleteRequestCollection "velero" (getValidName "foo") "uid"] := by
  have h := processRequest_full_delete_sequence envFullDelete reqFullDelete
    { nspace := "velero", name := "foo", uid := "uid", storageLocation := "primary" }
    { nspace := "velero", name := "primary", accessMode := BSLAccessMode.readWrite }
    (by decide) (by decide) (by decide) (by decide) (by decide) (by decide)
    rfl rfl rfl (fun _ => rfl) (by decide) (fun _ => rfl) (fun _ => rfl) rfl rfl
  exact ⟨h.1, h.2.1⟩

theorem processRequest_fatal_error_classification_witness :
    (processRequest envPatchFail reqPatchFail).err ≠ none ∧
    (processRequest envPatchOk reqPatchFail).err = none ∧
    Action.deleteBackupCluster "velero" "foo" ∈
      (processRequest envPatchOk reqPatchFail).actions ∧
    (processRequest { envPatchOk with getBackupContentsErr := some "boom" }
        reqPatchFail).actions =
      (processRequest envPatchOk reqPatchFail).actions := by
  refine ⟨?_, ?_, ?_, ?_⟩
  · exact (processRequest_fatal_error_classification envPatchFail reqPatchFail
      { nspace := "velero", name := "foo", uid := "uid", storageLocation := "primary" }
      { nspace := "velero", name := "primary", accessMode := BSLAccessMode.readWrite }
      (by decide) (by decide) (by decide) (by decide) (by decide)).1.mpr
      (Or.inl (by decide))
  · exact ((processRequest_fatal_error_classification envPatchOk reqPatchFail
      { nspace := "velero", name := "foo", uid := "uid", storageLocation := "primary" }
      { nspace := "velero", name := "primary", accessMode := BSLAccessMode.readWrite }
      (by decide) (by decide) (by decide) (by decide) (by decide)).2.1 rfl rfl).1
  · exact ((processRequest_fatal_error_classification envPatchOk reqPatchFail
      { nspace := "velero", name := "foo", uid := "uid", storageLocation := "primary" }
      { nspace := "velero", name := "primary", accessMode := BSLAccessMode.readWrite }
      (by decide) (by decide) (by decide) (by decide) (by decide)).2.1 rfl rfl).2.1
  · exact ((processRequest_fatal_error_classification envPatchOk reqPatchFail
      { nspace := "velero", name := "foo", uid := "uid", storageLocation := "primary" }
      { nspace := "velero", name := "primary", accessMode := BSLAccessMode.readWrite }
      (by decide) (by decide) (by decide) (by decide) (by decide)).2.2
      (some "boom")).2

theorem processRequest_tracked_no_destruction_witness :
    processRequest envTracked reqTracked =
      { err := none
        actions := [Action.deleteRequest "velero" "bar",
                    Action.patchRequestProcessed ["backup is still in progress"]]
        deletedSnapshots := []
        downloadAttempted := false } := by
  have h := (processRequest_tracked_no_destruction envTracked reqTracked
    (by decide) (by decide)).1
  rw [h]
  decide

theorem processRequest_download_failure_nonfatal_witness :
    (processRequest envTarballFail reqTarballFail).err = none ∧
    (processRequest envTarballFail reqTarballFail).downloadAttempted = true ∧
    Action.patchRequestProcessed [] ∈ (processRequest envTarballFail reqTarballFail).actions := by
  have h := processRequest_download_failure_nonfatal envTarballFail reqTarballFail
    { nspace := "velero", name := "foo", uid := "uid", storageLocation := "primary" }
    { nspace := "velero", name := "primary", accessMode := BSLAccessMode.readWrite }
    "error downloading tarball"
    (by decide) (by decide) (by decide) (by decide) (by decide) (by decide)
    rfl rfl rfl rfl (fun _ => rfl) (by decide) (fun _ => rfl) (fun _ => rfl) rfl rfl
  exact ⟨h.1, h.2.1, h.2.2.2.2⟩

theorem clientConfig_resolution_priority_witness :
    (SourceClientConfig witnessParseURL witnessKcParse witnessFactory
        (Except.ok witnessSecretsShared)).1 =
      Except.ok (restConfigWithSAToken witnessParseURL
        { stickyUpdate witnessFactory (resolvedCreds witnessSecretsShared srcClusterSecretName) with
          srcClusterHost := (resolvedCreds witnessSecretsShared srcClusterSecretName).host }
        (resolvedCreds witnessSecretsShared srcClusterSecretName)) ∧
    (SourceClientConfig witnessParseURL witnessKcParse witnessFactory (Except.ok [])).1 =
      Except.ok (Config witnessFactory.kubeconfig witnessFactory.kubecontext
        witnessFactory.baseName) := by
  constructor
  · have h := (clientConfig_resolution_priority witnessParseURL witnessKcParse
      witnessFactory witnessSecretsShared).2.2.1 (by decide)
    rw [h, if_neg (by decide)]
  · exact (clientConfig_resolution_priority witnessParseURL witnessKcParse
      witnessFactory []).2.2.2.1 (by decide)

theorem credentialShape_config_witness :
    (restConfigWithSAToken witnessParseURL witnessFactory
        (lookupSecretCreds witnessSecretsShared remoteClusterSecretName)).tlsInsecure =
      some true ∧
    (SourceClientConfig witnessParseURL witnessKcParse witnessFactory
        (Except.ok witnessSecretsSrc)).1 =
      restConfigWithKubeConfig witnessParseURL witnessKcParse
        { stickyUpdate witnessFactory (resolvedCreds witnessSecretsSrc srcClusterSecretName) with
          srcClusterHost := (resolvedCreds witnessSecretsSrc srcClusterSecretName).host }
        (resolvedCreds witnessSecretsSrc srcClusterSecretName) := by
  constructor
  · exact (credentialShape_config witnessParseURL witnessKcParse witnessFactory
      (lookupSecretCreds witnessSecretsShared remoteClusterSecretName)
      witnessSecretsShared).1.2.2
  · exact ((credentialShape_config witnessParseURL witnessKcParse witnessFactory
      (resolvedCreds witnessSecretsSrc srcClusterSecretName) witnessSecretsSrc).2.2
      rfl (by decide)).1 (by decide)

theorem malformedProxy_not_rejected_witness :
    (restConfigWithSAToken (fun _ => none)
        { witnessFactory with httpsProxy := "::bad url::" }
        (lookupSecretCreds witnessSecretsShared remoteClusterSecretName)).transportProxy =
      some none ∧
    exceptIsOk (SourceClientConfig (fun _ => none) witnessKcParse
        { witnessFactory with httpsProxy := "::bad url::" }
        (Except.ok witnessSecretsShared)).1 =
      exceptIsOk (SourceClientConfig witnessParseURL witnessKcParse
        { witnessFactory with httpsProxy := "" } (Except.ok witnessSecretsShared)).1 := by
  constructor
  · exact (malformedProxy_not_rejected (fun _ => none) witnessKcParse
      { witnessFactory with httpsProxy := "::bad url::" }
      (lookupSecretCreds witnessSecretsShared remoteClusterSecretName)
      { source := ConfigSource.saTokenCfg } "" witnessSecretsShared).2.1
      (by decide) rfl
  · exact ((malformedProxy_not_rejected (fun _ => none) witnessKcParse witnessFactory
      ServiceAcctCreds.zero { source := ConfigSource.saTokenCfg } "" witnessSecretsShared).2.2
      witnessParseURL "::bad url::" "").1

theorem httpsProxy_sticky_witness :
    ((serviceAcctCredsFromSecret { witnessFactory with httpsProxy := "http://flag" }
        (Except.ok witnessSecretsSrc) srcClusterSecretName).2).httpsProxy = "http://flag" ∧
    ((serviceAcctCredsFromSecret witnessFactory (Except.ok witnessSecretsSrc)
        srcClusterSecretName).2).httpsProxy = "http://proxy" ∧
    ((SourceClientConfig witnessParseURL witnessKcParse
        { witnessFactory with httpsProxy := "http://flag" }
        (Except.ok witnessSecretsSrc)).2).httpsProxy = "http://flag" := by
  refine ⟨?_, ?_, ?_⟩
  · exact (httpsProxy_sticky witnessParseURL witnessKcParse
      { witnessFactory with httpsProxy := "http://flag" } (Except.ok witnessSecretsSrc)
      witnessSecretsSrc srcClusterSecretName ServiceAcctCreds.zero).1 (by decide)
  · have h := (httpsProxy_sticky witnessParseURL witnessKcParse witnessFactory
      (Except.ok witnessSecretsSrc) witnessSecretsSrc srcClusterSecretName
      ServiceAcctCreds.zero).2.2.1 rfl (by decide)
    rw [h]
    decide
  · exact ((httpsProxy_sticky witnessParseURL witnessKcParse
      { witnessFactory with httpsProxy := "http://flag" } (Except.ok witnessSecretsSrc)
      witnessSecretsSrc srcClusterSecretName ServiceAcctCreds.zero).2.1 (by decide)).1

end RemoteVelero
